import Mathlib

/-!
Verification of the keyboard-state synchronizer in
src/src/hooks/useAnimatedKeyboard.ts.

The module subscribes to platform keyboard show/hide notifications,
normalizes them through a single worklet (handleKeyboardEvent) into a
shared KeyboardState cell, caches a SHOWN event that arrives before the
focused-input target is known, and replays the cached event once the
target is set (via a reactive watch over KeyboardState.target).

The embedding below is a direct shallow translation: shared mutable
cells (the state shared value and the temporaryCachedState shared value)
become explicit state passing over a SyncState record, and each handler
becomes a pure function on SyncState.
-/

/-- Modelled from the spec: the KEYBOARD_STATUS enum is imported from
src/src/constants.ts, which is not under src/; the spec data model lists
the members UNDETERMINED, SHOWN, HIDDEN. -/
inductive KEYBOARD_STATUS where
  | UNDETERMINED
  | SHOWN
  | HIDDEN
  deriving DecidableEq, Repr

/-- The KeyboardEventEasing token type of the platform API: one of the
easing curve names reported by the platform, including the keyboard
token used as the module default. -/
inductive KeyboardEventEasing where
  | easeIn
  | easeInEaseOut
  | easeOut
  | linear
  | keyboard
  deriving DecidableEq, Repr

/-- Modelled from the spec: the KeyboardState record type is imported
from src/src/types.ts, which is not under src/; the spec data model
lists status, height, heightWithinContainer, easing, duration and an
optional opaque target identifier. Heights and durations are modelled
as integers; target is an optional identifier, unset = none. -/
structure KeyboardState where
  status : KEYBOARD_STATUS
  height : Int
  heightWithinContainer : Int
  easing : KeyboardEventEasing
  duration : Int
  target : Option String := none
  deriving DecidableEq, Repr

/-- The temporaryCachedState payload: Omit of KeyboardState over
heightWithinContainer and target (useAnimatedKeyboard.ts lines 61-64). -/
structure PendingKeyboardEvent where
  status : KEYBOARD_STATUS
  height : Int
  duration : Int
  easing : KeyboardEventEasing
  deriving DecidableEq, Repr

/-- The two shared cells owned by one synchronizer instance: the state
shared value and the temporaryCachedState shared value (lines 60-64). -/
structure SyncState where
  state : KeyboardState
  temporaryCachedState : Option PendingKeyboardEvent
  deriving DecidableEq, Repr

/-- INITIAL_STATE (lines 49-55): status UNDETERMINED, height 0,
heightWithinContainer 0, easing keyboard, duration 500, target unset. -/
def INITIAL_STATE : KeyboardState :=
  { status := KEYBOARD_STATUS.UNDETERMINED
    height := 0
    heightWithinContainer := 0
    easing := KeyboardEventEasing.keyboard
    duration := 500
    target := none }

/-- The cells at synchronizer initialization: state = INITIAL_STATE,
temporaryCachedState = null. -/
def initialSync : SyncState :=
  { state := INITIAL_STATE, temporaryCachedState := none }

/-- handleKeyboardEvent (lines 68-123). If status is SHOWN and the
current target is unset, cache the event fields (without bottomOffset)
and return without touching KeyboardState. Otherwise clear the cache,
keep the old height when status is HIDDEN, add bottomOffset when it is
given and nonzero (the JS truthiness test on line 109), and commit the
new KeyboardState carrying over target and heightWithinContainer. -/
def handleKeyboardEvent (status : KEYBOARD_STATUS) (height : Int)
    (duration : Int) (easing : KeyboardEventEasing)
    (bottomOffset : Option Int) (s : SyncState) : SyncState :=
  let currentState := s.state
  if status = KEYBOARD_STATUS.SHOWN ∧ currentState.target = none then
    { s with
        temporaryCachedState :=
          some { status := status, height := height,
                 duration := duration, easing := easing } }
  else
    let adjustedHeight :=
      if status = KEYBOARD_STATUS.SHOWN then height else currentState.height
    let adjustedHeight :=
      match bottomOffset with
      | some b => if b = 0 then adjustedHeight else adjustedHeight + b
      | none => adjustedHeight
    { state :=
        { status := status
          easing := easing
          duration := duration
          height := adjustedHeight
          target := currentState.target
          heightWithinContainer := currentState.heightWithinContainer }
      temporaryCachedState := none }

/-- The useAnimatedReaction callback (lines 211-231), run when the
watched value state.value.target produces result with prior value
previous: bail out when result is unset or unchanged, otherwise replay
a cached pending event (no bottomOffset argument). -/
def targetReaction (result previous : Option String) (s : SyncState) :
    SyncState :=
  if result = none ∨ result = previous then s
  else
    match s.temporaryCachedState with
    | none => s
    | some cachedState =>
        handleKeyboardEvent cachedState.status cachedState.height
          cachedState.duration cachedState.easing none s

/-- The external focus collaborator writing KeyboardState.target; this
module only reads target (spec section 3). -/
def setTarget (t : Option String) (s : SyncState) : SyncState :=
  { s with state := { s.state with target := t } }

/-- An external target write followed by the reaction it triggers: the
reaction observes the new value with the previous one. -/
def setTargetAndReact (t : Option String) (s : SyncState) : SyncState :=
  targetReaction t s.state.target (setTarget t s)

/-- Payload of the alternative (keyboard-controller) event source: the
handlers on lines 134-150 read event.height and event.duration, where
duration may be absent (the nullish-coalescing default on lines 138 and
147). -/
structure KeyboardControllerEvent where
  height : Int
  duration : Option Int
  deriving DecidableEq, Repr

/-- handleOnKeyboardShow of the keyboard-controller branch (lines
134-142): SHOWN, event height, duration defaulting to 250, keyboard
easing, bottomOffset 0. -/
def handleOnKeyboardShowKC (event : KeyboardControllerEvent)
    (s : SyncState) : SyncState :=
  handleKeyboardEvent KEYBOARD_STATUS.SHOWN event.height
    (event.duration.getD 250) KeyboardEventEasing.keyboard (some 0) s

/-- handleOnKeyboardHide of the keyboard-controller branch (lines
143-150): HIDDEN, event height, duration defaulting to 250, keyboard
easing, no bottomOffset. -/
def handleOnKeyboardHideKC (event : KeyboardControllerEvent)
    (s : SyncState) : SyncState :=
  handleKeyboardEvent KEYBOARD_STATUS.HIDDEN event.height
    (event.duration.getD 250) KeyboardEventEasing.keyboard none s

/-- The endCoordinates record of a primary-source KeyboardEvent: the
handlers read height and screenY. -/
structure EndCoordinates where
  height : Int
  screenY : Int
  deriving DecidableEq, Repr

/-- A primary-source (standard Keyboard API) event: endCoordinates,
duration and easing are required fields of the platform event type. -/
structure RNKeyboardEvent where
  endCoordinates : EndCoordinates
  duration : Int
  easing : KeyboardEventEasing
  deriving DecidableEq, Repr

/-- handleOnKeyboardShow of the fallback branch (lines 170-180):
SHOWN, endCoordinates height, event duration and easing, and
bottomOffset = SCREEN_HEIGHT - height - screenY. Modelled from the
spec: SCREEN_HEIGHT is imported from src/src/constants.ts, which is not
under src/; it is passed here as the screenHeight parameter. -/
def handleOnKeyboardShow (screenHeight : Int) (event : RNKeyboardEvent)
    (s : SyncState) : SyncState :=
  handleKeyboardEvent KEYBOARD_STATUS.SHOWN event.endCoordinates.height
    event.duration event.easing
    (some (screenHeight - event.endCoordinates.height -
      event.endCoordinates.screenY)) s

/-- handleOnKeyboardHide of the fallback branch (lines 181-188):
HIDDEN, endCoordinates height, event duration and easing, no
bottomOffset. -/
def handleOnKeyboardHide (event : RNKeyboardEvent) (s : SyncState) :
    SyncState :=
  handleKeyboardEvent KEYBOARD_STATUS.HIDDEN event.endCoordinates.height
    event.duration event.easing none s

/-- A keyboard event as dispatched by this module into
handleKeyboardEvent: every show dispatch carries a bottomOffset (the
computed one on the primary source, 0 on the alternative source) and
every hide dispatch carries none. -/
inductive ModuleEvent where
  | showEvent (height : Int) (duration : Int)
      (easing : KeyboardEventEasing) (bottomOffset : Int)
  | hideEvent (height : Int) (duration : Int)
      (easing : KeyboardEventEasing)
  deriving DecidableEq, Repr

/-- Dispatch of a module keyboard event into handleKeyboardEvent. -/
def dispatch : ModuleEvent → SyncState → SyncState
  | ModuleEvent.showEvent h d e off, s =>
      handleKeyboardEvent KEYBOARD_STATUS.SHOWN h d e (some off) s
  | ModuleEvent.hideEvent h d e, s =>
      handleKeyboardEvent KEYBOARD_STATUS.HIDDEN h d e none s

/-- Whether a module event is a hide event. -/
def ModuleEvent.isHide : ModuleEvent → Bool
  | ModuleEvent.hideEvent _ _ _ => true
  | ModuleEvent.showEvent _ _ _ _ => false

/-- Run a sequence of module keyboard events. -/
def runEvents (evs : List ModuleEvent) (s : SyncState) : SyncState :=
  evs.foldl (fun s e => dispatch e s) s

/-- An operation touching the synchronizer state: either a keyboard
event dispatched by one of the handlers, or an external focus change
(target write) together with the reaction it triggers. -/
inductive Op where
  | keyboard (e : ModuleEvent)
  | focus (t : Option String)
  deriving DecidableEq, Repr

/-- One operation step on the synchronizer state. -/
def step : Op → SyncState → SyncState
  | Op.keyboard e, s => dispatch e s
  | Op.focus t, s => setTargetAndReact t s

/-- Run a sequence of operations from a starting state. -/
def run (ops : List Op) (s : SyncState) : SyncState :=
  ops.foldl (fun s op => step op s) s

/-! Shared helper lemmas. -/

/-- handleKeyboardEvent carries over target and heightWithinContainer
in both of its branches. -/
theorem handleKeyboardEvent_preserves_target_hwc (status : KEYBOARD_STATUS)
    (h d : Int) (e : KeyboardEventEasing) (b : Option Int) (s : SyncState) :
    (handleKeyboardEvent status h d e b s).state.target = s.state.target ∧
    (handleKeyboardEvent status h d e b s).state.heightWithinContainer =
      s.state.heightWithinContainer := by
  by_cases hc : status = KEYBOARD_STATUS.SHOWN ∧ s.state.target = none <;>
    simp [handleKeyboardEvent, hc]

/-- A hide dispatch (no bottomOffset) leaves the committed height equal
to the previous height. -/
theorem dispatch_hide_height (h d : Int) (e : KeyboardEventEasing)
    (s : SyncState) :
    (dispatch (ModuleEvent.hideEvent h d e) s).state.height =
      s.state.height := by
  simp [dispatch, handleKeyboardEvent]

/-- A show dispatch with target set commits height = event height plus
the dispatched bottomOffset. -/
theorem dispatch_show_height (h d : Int) (e : KeyboardEventEasing)
    (off : Int) (s : SyncState) (hT : s.state.target ≠ none) :
    (dispatch (ModuleEvent.showEvent h d e off) s).state.height =
      h + off := by
  simp [dispatch, handleKeyboardEvent, hT]

/-! Claim theorems. -/

/-- C2: a SHOWN event applied while target is unset leaves KeyboardState
entirely unchanged and stores the event fields (without bottomOffset) as
the pending cached event. -/
theorem shown_without_target_caches (h d : Int) (e : KeyboardEventEasing)
    (b : Option Int) (s : SyncState) (hT : s.state.target = none) :
    handleKeyboardEvent KEYBOARD_STATUS.SHOWN h d e b s =
      { state := s.state
        temporaryCachedState :=
          some { status := KEYBOARD_STATUS.SHOWN, height := h,
                 duration := d, easing := e } } := by
  simp [handleKeyboardEvent, hT]

/-- C2 witness: a concrete SHOWN event with a bottomOffset, applied at
the initial state (target unset), caches the fields without the offset
and leaves the state untouched. -/
theorem shown_without_target_caches_witness :
    handleKeyboardEvent KEYBOARD_STATUS.SHOWN 280 250
        KeyboardEventEasing.keyboard (some 7) initialSync =
      { state := initialSync.state
        temporaryCachedState :=
          some { status := KEYBOARD_STATUS.SHOWN, height := 280,
                 duration := 250, easing := KeyboardEventEasing.keyboard } } :=
  shown_without_target_caches 280 250 KeyboardEventEasing.keyboard (some 7)
    initialSync rfl

/-- C4: neither handleKeyboardEvent nor the target reaction ever writes
KeyboardState.target or KeyboardState.heightWithinContainer: every
resulting state carries over the previous values unchanged. -/
theorem target_and_hwc_never_written :
    (∀ (status : KEYBOARD_STATUS) (h d : Int) (e : KeyboardEventEasing)
        (b : Option Int) (s : SyncState),
      (handleKeyboardEvent status h d e b s).state.target = s.state.target ∧
      (handleKeyboardEvent status h d e b s).state.heightWithinContainer =
        s.state.heightWithinContainer) ∧
    (∀ (r p : Option String) (s : SyncState),
      (targetReaction r p s).state.target = s.state.target ∧
      (targetReaction r p s).state.heightWithinContainer =
        s.state.heightWithinContainer) := by
  refine ⟨fun status h d e b s =>
    handleKeyboardEvent_preserves_target_hwc status h d e b s,
    fun r p s => ?_⟩
  unfold targetReaction
  split
  · exact ⟨rfl, rfl⟩
  · cases hc : s.temporaryCachedState with
    | none => exact ⟨rfl, rfl⟩
    | some c =>
        exact handleKeyboardEvent_preserves_target_hwc c.status c.height
          c.duration c.easing none s

/-- C6: a reaction invocation whose observed value is unset or equal to
the previous value performs no replay: the whole synchronizer state,
cache included, is returned unchanged. -/
theorem no_replay_on_noop_target (r p : Option String) (s : SyncState)
    (hrp : r = none ∨ r = p) : targetReaction r p s = s := by
  unfold targetReaction
  exact if_pos hrp

/-- C6 witness: reassigning the target to its current value at a state
that holds a pending cached event changes nothing. -/
theorem no_replay_on_noop_target_witness :
    targetReaction (some "A") (some "A")
        { state := { status := KEYBOARD_STATUS.UNDETERMINED, height := 0,
                     heightWithinContainer := 0,
                     easing := KeyboardEventEasing.keyboard, duration := 500,
                     target := some "A" }
          temporaryCachedState :=
            some { status := KEYBOARD_STATUS.SHOWN, height := 280,
                   duration := 250, easing := KeyboardEventEasing.keyboard } } =
      { state := { status := KEYBOARD_STATUS.UNDETERMINED, height := 0,
                   heightWithinContainer := 0,
                   easing := KeyboardEventEasing.keyboard, duration := 500,
                   target := some "A" }
        temporaryCachedState :=
          some { status := KEYBOARD_STATUS.SHOWN, height := 280,
                 duration := 250, easing := KeyboardEventEasing.keyboard } } :=
  no_replay_on_noop_target (some "A") (some "A") _ (Or.inr rfl)

/-- C9 counterexample: the initial KeyboardState has duration 500, not
the 250 ms default the claim states. -/
theorem initial_duration_not_250 :
    INITIAL_STATE.duration = 500 ∧ ¬ INITIAL_STATE.duration = 250 := by
  decide

/-- C9 amended: the KeyboardState created at synchronizer
initialization is status UNDETERMINED, height 0, heightWithinContainer
0, the default keyboard easing token, duration 500 ms (not the 250 ms
event-handler default), and unset target; the cache starts empty. -/
theorem initial_state_value :
    INITIAL_STATE.status = KEYBOARD_STATUS.UNDETERMINED ∧
    INITIAL_STATE.height = 0 ∧
    INITIAL_STATE.heightWithinContainer = 0 ∧
    INITIAL_STATE.easing = KeyboardEventEasing.keyboard ∧
    INITIAL_STATE.duration = 500 ∧
    INITIAL_STATE.target = none ∧
    initialSync = { state := INITIAL_STATE, temporaryCachedState := none } := by
  decide

/-- C8: the primary-source show handler dispatches with bottomOffset =
screenHeight - reported height - reported screenY; at screenHeight 800
and endCoordinates height 300, screenY 500 the offset is 0 and the
committed height (with target set) is exactly 300. -/
theorem primary_bottomOffset_formula :
    (∀ (screenHeight : Int) (event : RNKeyboardEvent) (s : SyncState),
      handleOnKeyboardShow screenHeight event s =
        handleKeyboardEvent KEYBOARD_STATUS.SHOWN event.endCoordinates.height
          event.duration event.easing
          (some (screenHeight - event.endCoordinates.height -
            event.endCoordinates.screenY)) s) ∧
    (800 : Int) - 300 - 500 = 0 ∧
    (handleOnKeyboardShow 800
        { endCoordinates := { height := 300, screenY := 500 },
          duration := 250, easing := KeyboardEventEasing.keyboard }
        { state := { status := KEYBOARD_STATUS.UNDETERMINED, height := 0,
                     heightWithinContainer := 0,
                     easing := KeyboardEventEasing.keyboard, duration := 500,
                     target := some "A" }
          temporaryCachedState := none }).state.height = 300 := by
  exact ⟨fun _ _ _ => rfl, by decide, by decide⟩

/-- C1: when target goes from unset to a defined value while a SHOWN
pending event is cached, the reaction re-invokes handleKeyboardEvent
with the cached status, height, duration and easing and no bottomOffset;
the cache is cleared and the resulting KeyboardState carries the cached
fields together with the new target. -/
theorem target_set_replays_pending (s : SyncState) (c : PendingKeyboardEvent)
    (a : String) (hT : s.state.target = none)
    (hC : s.temporaryCachedState = some c)
    (hS : c.status = KEYBOARD_STATUS.SHOWN) :
    setTargetAndReact (some a) s =
      handleKeyboardEvent c.status c.height c.duration c.easing none
        (setTarget (some a) s) ∧
    (setTargetAndReact (some a) s).temporaryCachedState = none ∧
    (setTargetAndReact (some a) s).state =
      { status := KEYBOARD_STATUS.SHOWN, height := c.height,
        heightWithinContainer := s.state.heightWithinContainer,
        easing := c.easing, duration := c.duration, target := some a } := by
  have hreact : setTargetAndReact (some a) s =
      handleKeyboardEvent c.status c.height c.duration c.easing none
        (setTarget (some a) s) := by
    unfold setTargetAndReact targetReaction
    rw [hT]
    have hguard : ¬ ((some a : Option String) = none ∨
        (some a : Option String) = none) := by simp
    rw [if_neg hguard]
    have hcache : (setTarget (some a) s).temporaryCachedState = some c := hC
    rw [hcache]
  refine ⟨hreact, ?_, ?_⟩ <;>
    rw [hreact] <;>
    simp [handleKeyboardEvent, setTarget, hS]

/-- C1 witness: the spec example, cached pending SHOWN with height 280,
duration 250, keyboard easing, target set to the input id A. -/
theorem target_set_replays_pending_witness :
    (setTargetAndReact (some "A")
        { state := { status := KEYBOARD_STATUS.UNDETERMINED, height := 0,
                     heightWithinContainer := 0,
                     easing := KeyboardEventEasing.keyboard, duration := 500,
                     target := none }
          temporaryCachedState :=
            some { status := KEYBOARD_STATUS.SHOWN, height := 280,
                   duration := 250,
                   easing := KeyboardEventEasing.keyboard } }).state =
      { status := KEYBOARD_STATUS.SHOWN, height := 280,
        heightWithinContainer := 0, easing := KeyboardEventEasing.keyboard,
        duration := 250, target := some "A" } :=
  (target_set_replays_pending _
    { status := KEYBOARD_STATUS.SHOWN, height := 280, duration := 250,
      easing := KeyboardEventEasing.keyboard } "A" rfl rfl rfl).2.2

/-- C5: hide dispatches carry no offset and leave the committed height
at the previous height; alternative-source show dispatches use offset 0
and commit exactly the reported height; primary-source show dispatches
commit the reported height plus the computed bottomOffset. -/
theorem bottomOffset_only_primary_shown :
    (∀ (event : KeyboardControllerEvent) (s : SyncState),
      s.state.target ≠ none →
      (handleOnKeyboardShowKC event s).state.height = event.height) ∧
    (∀ (event : KeyboardControllerEvent) (s : SyncState),
      (handleOnKeyboardHideKC event s).state.height = s.state.height) ∧
    (∀ (event : RNKeyboardEvent) (s : SyncState),
      (handleOnKeyboardHide event s).state.height = s.state.height) ∧
    (∀ (screenHeight : Int) (event : RNKeyboardEvent) (s : SyncState),
      s.state.target ≠ none →
      (handleOnKeyboardShow screenHeight event s).state.height =
        event.endCoordinates.height +
          (screenHeight - event.endCoordinates.height -
            event.endCoordinates.screenY)) := by
  refine ⟨fun event s hT => ?_, fun event s => ?_, fun event s => ?_,
    fun screenHeight event s hT => ?_⟩
  · simpa using dispatch_show_height event.height (event.duration.getD 250)
      KeyboardEventEasing.keyboard 0 s hT
  · exact dispatch_hide_height event.height (event.duration.getD 250)
      KeyboardEventEasing.keyboard s
  · exact dispatch_hide_height event.endCoordinates.height event.duration
      event.easing s
  · exact dispatch_show_height event.endCoordinates.height event.duration
      event.easing
      (screenHeight - event.endCoordinates.height -
        event.endCoordinates.screenY) s hT

/-- C5 witness: with target set, an alternative-source show event of
height 300 commits exactly 300, and a primary-source show event of
height 300 at screenY 450 on a screen of height 800 commits 300 plus the
offset 50. -/
theorem bottomOffset_only_primary_shown_witness :
    (handleOnKeyboardShowKC { height := 300, duration := some 250 }
        { state := { status := KEYBOARD_STATUS.UNDETERMINED, height := 0,
                     heightWithinContainer := 0,
                     easing := KeyboardEventEasing.keyboard, duration := 500,
                     target := some "A" }
          temporaryCachedState := none }).state.height = 300 ∧
    (handleOnKeyboardShow 800
        { endCoordinates := { height := 300, screenY := 450 },
          duration := 250, easing := KeyboardEventEasing.keyboard }
        { state := { status := KEYBOARD_STATUS.UNDETERMINED, height := 0,
                     heightWithinContainer := 0,
                     easing := KeyboardEventEasing.keyboard, duration := 500,
                     target := some "A" }
          temporaryCachedState := none }).state.height =
      300 + (800 - 300 - 450) :=
  ⟨bottomOffset_only_primary_shown.1 { height := 300, duration := some 250 }
      _ (by decide),
   bottomOffset_only_primary_shown.2.2.2 800
      { endCoordinates := { height := 300, screenY := 450 },
        duration := 250, easing := KeyboardEventEasing.keyboard }
      _ (by decide)⟩

/-- C7: an alternative-source event whose duration is absent is
dispatched with the default duration 250 and the default keyboard easing
token, by both the show and the hide handler; every handler is a total
function, so no input raises an error. -/
theorem missing_fields_default (event : KeyboardControllerEvent)
    (s : SyncState) (hd : event.duration = none) :
    handleOnKeyboardShowKC event s =
      handleKeyboardEvent KEYBOARD_STATUS.SHOWN event.height 250
        KeyboardEventEasing.keyboard (some 0) s ∧
    handleOnKeyboardHideKC event s =
      handleKeyboardEvent KEYBOARD_STATUS.HIDDEN event.height 250
        KeyboardEventEasing.keyboard none s := by
  simp [handleOnKeyboardShowKC, handleOnKeyboardHideKC, hd]

/-- C7 witness: a concrete event of height 310 with no duration is
dispatched with duration 250 and keyboard easing by both handlers. -/
theorem missing_fields_default_witness :
    handleOnKeyboardShowKC { height := 310, duration := none } initialSync =
      handleKeyboardEvent KEYBOARD_STATUS.SHOWN 310 250
        KeyboardEventEasing.keyboard (some 0) initialSync ∧
    handleOnKeyboardHideKC { height := 310, duration := none } initialSync =
      handleKeyboardEvent KEYBOARD_STATUS.HIDDEN 310 250
        KeyboardEventEasing.keyboard none initialSync :=
  missing_fields_default { height := 310, duration := none } initialSync rfl

/-- A run of hide-only module events leaves the committed height
unchanged. -/
theorem runEvents_hides_preserve_height (evs : List ModuleEvent)
    (s : SyncState) (hh : ∀ ev ∈ evs, ev.isHide = true) :
    (runEvents evs s).state.height = s.state.height := by
  induction evs generalizing s with
  | nil => rfl
  | cons ev rest ih =>
      cases ev with
      | showEvent h d e off =>
          exact absurd (hh _ (List.mem_cons_self _ _))
            (by simp [ModuleEvent.isHide])
      | hideEvent h d e =>
          have hrest : ∀ ev ∈ rest, ev.isHide = true :=
            fun ev hev => hh ev (List.mem_cons_of_mem _ hev)
          calc (runEvents (ModuleEvent.hideEvent h d e :: rest) s).state.height
              = (runEvents rest
                  (dispatch (ModuleEvent.hideEvent h d e) s)).state.height :=
                rfl
            _ = (dispatch (ModuleEvent.hideEvent h d e) s).state.height :=
                ih _ hrest
            _ = s.state.height := dispatch_hide_height h d e s

/-- C3 counterexample: a HIDDEN call with a nonzero bottomOffset at a
state with target set commits (status becomes HIDDEN) yet the committed
height is 105, not the previous height 100 — the offset is added on the
HIDDEN path too. -/
theorem hidden_commit_with_offset_changes_height :
    (handleKeyboardEvent KEYBOARD_STATUS.HIDDEN 0 250
        KeyboardEventEasing.keyboard (some 5)
        { state := { status := KEYBOARD_STATUS.SHOWN, height := 100,
                     heightWithinContainer := 0,
                     easing := KeyboardEventEasing.keyboard, duration := 250,
                     target := some "A" }
          temporaryCachedState := none }).state.status =
      KEYBOARD_STATUS.HIDDEN ∧
    (handleKeyboardEvent KEYBOARD_STATUS.HIDDEN 0 250
        KeyboardEventEasing.keyboard (some 5)
        { state := { status := KEYBOARD_STATUS.SHOWN, height := 100,
                     heightWithinContainer := 0,
                     easing := KeyboardEventEasing.keyboard, duration := 250,
                     target := some "A" }
          temporaryCachedState := none }).state.height = 105 ∧
    ¬ (handleKeyboardEvent KEYBOARD_STATUS.HIDDEN 0 250
        KeyboardEventEasing.keyboard (some 5)
        { state := { status := KEYBOARD_STATUS.SHOWN, height := 100,
                     heightWithinContainer := 0,
                     easing := KeyboardEventEasing.keyboard, duration := 250,
                     target := some "A" }
          temporaryCachedState := none }).state.height = 100 := by
  decide

/-- C3 amended: for every module dispatch that commits, a show dispatch
with target set commits the event height plus the dispatched
bottomOffset, and a hide dispatch — which in this module never carries a
bottomOffset — commits exactly the previous height; consequently, over
any dispatch sequence consisting of a show followed by hide events only,
the height after each hide equals the height produced by that show. -/
theorem commit_height_correct :
    (∀ (h d : Int) (e : KeyboardEventEasing) (off : Int) (s : SyncState),
      s.state.target ≠ none →
      (dispatch (ModuleEvent.showEvent h d e off) s).state.height = h + off) ∧
    (∀ (h d : Int) (e : KeyboardEventEasing) (s : SyncState),
      (dispatch (ModuleEvent.hideEvent h d e) s).state.height =
        s.state.height) ∧
    (∀ (s : SyncState), s.state.target ≠ none →
      ∀ (h d : Int) (e : KeyboardEventEasing) (off : Int)
        (rest : List ModuleEvent), (∀ ev ∈ rest, ev.isHide = true) →
      (runEvents (ModuleEvent.showEvent h d e off :: rest) s).state.height =
        h + off) := by
  refine ⟨fun h d e off s hT => dispatch_show_height h d e off s hT,
    fun h d e s => dispatch_hide_height h d e s,
    fun s hT h d e off rest hrest => ?_⟩
  calc (runEvents (ModuleEvent.showEvent h d e off :: rest) s).state.height
      = (runEvents rest
          (dispatch (ModuleEvent.showEvent h d e off) s)).state.height := rfl
    _ = (dispatch (ModuleEvent.showEvent h d e off) s).state.height :=
        runEvents_hides_preserve_height rest _ hrest
    _ = h + off := dispatch_show_height h d e off s hT

/-- C3 witness: with target set, a show of height 300 with offset 5
followed by two hide events leaves the height at 305, and a single hide
preserves the height. -/
theorem commit_height_correct_witness :
    (runEvents
        [ModuleEvent.showEvent 300 250 KeyboardEventEasing.keyboard 5,
         ModuleEvent.hideEvent 300 250 KeyboardEventEasing.keyboard,
         ModuleEvent.hideEvent 0 250 KeyboardEventEasing.keyboard]
        { state := { status := KEYBOARD_STATUS.UNDETERMINED, height := 0,
                     heightWithinContainer := 0,
                     easing := KeyboardEventEasing.keyboard, duration := 500,
                     target := some "A" }
          temporaryCachedState := none }).state.height = 300 + 5 :=
  commit_height_correct.2.2
    { state := { status := KEYBOARD_STATUS.UNDETERMINED, height := 0,
                 heightWithinContainer := 0,
                 easing := KeyboardEventEasing.keyboard, duration := 500,
                 target := some "A" }
      temporaryCachedState := none }
    (by decide) 300 250 KeyboardEventEasing.keyboard 5
    [ModuleEvent.hideEvent 300 250 KeyboardEventEasing.keyboard,
     ModuleEvent.hideEvent 0 250 KeyboardEventEasing.keyboard]
    (by decide)

/-- Invariant: whenever the pending cache is occupied, the cached event
has status SHOWN. -/
def cacheOnlyShown (s : SyncState) : Prop :=
  ∀ c, s.temporaryCachedState = some c → c.status = KEYBOARD_STATUS.SHOWN

/-- Any handleKeyboardEvent result satisfies the cache invariant: the
cache is written only on the SHOWN early-return path, with the SHOWN
status itself, and is cleared on every commit. -/
theorem handleKeyboardEvent_cache_shown (status : KEYBOARD_STATUS)
    (h d : Int) (e : KeyboardEventEasing) (b : Option Int) (s : SyncState) :
    cacheOnlyShown (handleKeyboardEvent status h d e b s) := by
  intro c hc
  by_cases hg : status = KEYBOARD_STATUS.SHOWN ∧ s.state.target = none
  · simp [handleKeyboardEvent, hg] at hc
    rw [← hc]
  · simp [handleKeyboardEvent, hg] at hc

/-- One operation step preserves the cache invariant. -/
theorem step_cache_shown (op : Op) (s : SyncState)
    (hs : cacheOnlyShown s) : cacheOnlyShown (step op s) := by
  cases op with
  | keyboard e =>
      cases e with
      | showEvent h d e off =>
          exact handleKeyboardEvent_cache_shown KEYBOARD_STATUS.SHOWN h d e
            (some off) s
      | hideEvent h d e =>
          exact handleKeyboardEvent_cache_shown KEYBOARD_STATUS.HIDDEN h d e
            none s
  | focus t =>
      show cacheOnlyShown (targetReaction t s.state.target (setTarget t s))
      unfold targetReaction
      split
      · exact hs
      · have hcc : (setTarget t s).temporaryCachedState =
            s.temporaryCachedState := rfl
        rw [hcc]
        cases hcase : s.temporaryCachedState with
        | none => exact hs
        | some c =>
            exact handleKeyboardEvent_cache_shown c.status c.height c.duration
              c.easing none (setTarget t s)

/-- Every state reachable from the initial state by keyboard events and
focus changes satisfies the cache invariant. -/
theorem run_cache_shown (ops : List Op) (s : SyncState)
    (hs : cacheOnlyShown s) : cacheOnlyShown (run ops s) := by
  induction ops generalizing s with
  | nil => exact hs
  | cons op rest ih => exact ih (step op s) (step_cache_shown op s hs)

/-- C10: every value ever held by the pending cache in a reachable state
has status SHOWN — hide events are never cached — and a second SHOWN
event arriving while target is still unset overwrites the single cache
slot with the newer event fields. -/
theorem pending_cache_invariant :
    (∀ (ops : List Op) (c : PendingKeyboardEvent),
      (run ops initialSync).temporaryCachedState = some c →
      c.status = KEYBOARD_STATUS.SHOWN) ∧
    (∀ (s : SyncState) (c1 : PendingKeyboardEvent) (h d : Int)
        (e : KeyboardEventEasing) (b : Option Int),
      s.state.target = none → s.temporaryCachedState = some c1 →
      (handleKeyboardEvent KEYBOARD_STATUS.SHOWN h d e b
          s).temporaryCachedState =
        some { status := KEYBOARD_STATUS.SHOWN, height := h, duration := d,
               easing := e }) := by
  refine ⟨fun ops c hc => ?_, fun s c1 h d e b hT hc1 => ?_⟩
  · exact run_cache_shown ops initialSync
      (fun c h => by simp [initialSync] at h) c hc
  · simp [handleKeyboardEvent, hT]

/-- C10 witness: after a single show event from the initial state the
cache holds a SHOWN event, and a second SHOWN event at a state already
caching an older SHOWN event overwrites the slot with the new fields. -/
theorem pending_cache_invariant_witness :
    ({ status := KEYBOARD_STATUS.SHOWN, height := 10, duration := 250,
       easing := KeyboardEventEasing.keyboard } :
        PendingKeyboardEvent).status = KEYBOARD_STATUS.SHOWN ∧
    (handleKeyboardEvent KEYBOARD_STATUS.SHOWN 7 100
        KeyboardEventEasing.linear (some 3)
        { state := { status := KEYBOARD_STATUS.UNDETERMINED, height := 0,
                     heightWithinContainer := 0,
                     easing := KeyboardEventEasing.keyboard, duration := 500,
                     target := none }
          temporaryCachedState :=
            some { status := KEYBOARD_STATUS.SHOWN, height := 5,
                   duration := 50,
                   easing :=
                     KeyboardEventEasing.keyboard } }).temporaryCachedState =
      some { status := KEYBOARD_STATUS.SHOWN, height := 7, duration := 100,
             easing := KeyboardEventEasing.linear } :=
  ⟨pending_cache_invariant.1
      [Op.keyboard (ModuleEvent.showEvent 10 250 KeyboardEventEasing.keyboard 0)]
      { status := KEYBOARD_STATUS.SHOWN, height := 10, duration := 250,
        easing := KeyboardEventEasing.keyboard } (by decide),
   pending_cache_invariant.2
      { state := { status := KEYBOARD_STATUS.UNDETERMINED, height := 0,
                   heightWithinContainer := 0,
                   easing := KeyboardEventEasing.keyboard, duration := 500,
                   target := none }
        temporaryCachedState :=
          some { status := KEYBOARD_STATUS.SHOWN, height := 5, duration := 50,
                 easing := KeyboardEventEasing.keyboard } }
      { status := KEYBOARD_STATUS.SHOWN, height := 5, duration := 50,
        easing := KeyboardEventEasing.keyboard }
      7 100 KeyboardEventEasing.linear (some 3) rfl rfl⟩
